import Mathlib

/-
Verification of the moving-average signal-detection and scoring engine of
the trading-filter repository.

Modelling conventions:
* A pandas DataFrame row is a `Row` of rational numbers (Python floats are
  idealised as exact rationals; every threshold comparison in the source is
  on decimal literals, which are exact in ℚ).
* `df` arguments are `Option (List Row)`: `none` models a `None` DataFrame,
  `some l` a frame with rows `l` in chronological order.
* `df.iloc[-k]` is `iloc l k`.
* Presentation-only dictionary entries (interpolated `message`, `tooltip`,
  `icon`, `color`, `label`, `animation`, `size` strings) are omitted from the
  result structures; every field consulted by the engine's own logic is kept.
* Python `round(x, 2)` is modelled by `round2` (vn: Python uses banker's
  rounding at exact midpoints, which no threshold of the engine can hit at a
  point that changes a comparison used by the claims).
-/

namespace TradingFilter

/-- One row of the working DataFrame: close price, volume and the three
moving-average columns MA10/MA20/MA50 consumed by the detectors. -/
structure Row where
  close : ℚ := 0
  volume : ℚ := 0
  MA10 : ℚ := 0
  MA20 : ℚ := 0
  MA50 : ℚ := 0
deriving DecidableEq

instance : Inhabited Row := ⟨{}⟩

/-- `iloc l k` models `df.iloc[-k]` (k-th row from the end, 1-based). -/
def iloc (l : List Row) (k : ℕ) : Row := l.getD (l.length - k) default

/-- Python `round(x, 2)`. -/
def round2 (x : ℚ) : ℚ := (round (x * 100) : ℤ) / 100

/-- Result of `ma_detector.detect_convergence`. -/
structure ConvergenceDetResult where
  is_converging : Bool
  convergence_pct : ℚ
  level : String
  slope : String
deriving DecidableEq

/-- Result of `ma_detector.detect_expansion`. -/
structure ExpansionDetResult where
  is_expanding : Bool
  quality : String
  ma50_slope : ℚ
  ma10_ma50_distance : ℚ
  ma20_ma50_distance : ℚ
deriving DecidableEq

/-- One golden-cross record (`type`, credibility `score`). -/
structure GCross where
  type : String
  score : ℚ
deriving DecidableEq

/-- Result of the golden-cross detectors. -/
structure GoldenCrossRes where
  crosses : List GCross
  best_cross : Option GCross
  has_cross : Bool
deriving DecidableEq

/-- One death-cross record. -/
structure DCross where
  type : String
  severity : String
  credibility_score : ℚ
deriving DecidableEq

/-- The `price_below_ma` factual flags of `detect_death_cross`. -/
structure PriceBelowMA where
  below_ma10 : Bool
  below_ma20 : Bool
  below_ma50 : Bool
deriving DecidableEq

/-- Result of `ma_detector.detect_death_cross`; `price_below_ma = none`
models the empty dict of the insufficient-data sentinel. -/
structure DeathCrossRes where
  has_death_cross : Bool
  crosses : List DCross
  strongest_cross : Option DCross
  price_below_ma : Option PriceBelowMA
deriving DecidableEq

/-- `max(crosses, key=...)`: Python `max` keeps the first maximal element;
the foldl replaces the accumulator only on strictly greater keys. -/
def bestByScore (cs : List GCross) : Option GCross :=
  match cs with
  | [] => none
  | c :: rest => some (rest.foldl (fun a b => if b.score > a.score then b else a) c)

/-- Same selection for death crosses (`key=lambda x: x['credibility_score']`). -/
def bestByCredibility (cs : List DCross) : Option DCross :=
  match cs with
  | [] => none
  | c :: rest =>
      some (rest.foldl (fun a b => if b.credibility_score > a.credibility_score then b else a) c)

namespace MADetector

/-- `ma_detector.detect_convergence`: bandwidth % over the latest bar's
three MAs, level classification and the MA50 10-bar slope label. -/
def detect_convergence (df : Option (List Row)) (_perfect_order : Bool) :
    ConvergenceDetResult :=
  match df with
  | none => ⟨false, 0, "NA", "NA"⟩
  | some l =>
    if l.length < 50 then ⟨false, 0, "NA", "NA"⟩
    else
      let latest := iloc l 1
      let ma10 := latest.MA10
      let ma20 := latest.MA20
      let ma50 := latest.MA50
      let max_ma := max ma10 (max ma20 ma50)
      let min_ma := min ma10 (min ma20 ma50)
      if min_ma = 0 then ⟨false, 0, "NA", "NA"⟩
      else
        let convergence_pct := (max_ma - min_ma) / min_ma * 100
        let level :=
          if convergence_pct < 3/2 then "SUPER_TIGHT"
          else if convergence_pct < 3 then "TIGHT"
          else "LOOSE"
        let is_converging := decide (convergence_pct < 3)
        let slope :=
          if 10 ≤ l.length then
            let ma50_10_days_ago := (iloc l 10).MA50
            if ma50_10_days_ago > 0 then
              let slope_pct := (ma50 - ma50_10_days_ago) / ma50_10_days_ago * 100
              if slope_pct > 1/2 then "UP"
              else if slope_pct < -(1/2) then "DOWN"
              else "NEUTRAL"
            else "NA"
          else "NA"
        ⟨is_converging, convergence_pct, level, slope⟩

/-- `ma_detector.detect_expansion`: MA10/MA20 distance from MA50 and the
MA50 10-bar slope, bucketed into quality tiers. -/
def detect_expansion (df : Option (List Row)) : ExpansionDetResult :=
  match df with
  | none => ⟨false, "NEUTRAL", 0, 0, 0⟩
  | some l =>
    if l.length < 50 then ⟨false, "NEUTRAL", 0, 0, 0⟩
    else
      let latest := iloc l 1
      let ma50 := latest.MA50
      if ma50 = 0 then ⟨false, "NEUTRAL", 0, 0, 0⟩
      else
        let dist_10_50 := (latest.MA10 - ma50) / ma50 * 100
        let dist_20_50 := (latest.MA20 - ma50) / ma50 * 100
        let ma50_slope :=
          if 10 ≤ l.length then
            let ma50_10_days_ago := (iloc l 10).MA50
            if ma50_10_days_ago > 0 then (ma50 - ma50_10_days_ago) / ma50_10_days_ago * 100
            else 0
          else 0
        let qe : String × Bool :=
          if dist_10_50 > 6 ∧ dist_20_50 > 3 ∧ ma50_slope > 2 then ("STRONG", true)
          else if dist_10_50 > 3 ∧ dist_20_50 > 3/2 ∧ ma50_slope > 1/2 then ("MODERATE", true)
          else if dist_10_50 > 1 ∧ ma50_slope > 0 then ("WEAK", false)
          else if dist_10_50 < -1 ∨ ma50_slope < -(1/2) then ("CONTRACTING", false)
          else ("NEUTRAL", false)
        ⟨qe.2, qe.1, round2 ma50_slope, round2 dist_10_50, round2 dist_20_50⟩

/-- `ma_detector.detect_golden_cross`: same-day upward crossovers of
(MA10,MA20) scored 6 and (MA20,MA50) scored 10; best = highest score. -/
def detect_golden_cross (df : Option (List Row)) : GoldenCrossRes :=
  match df with
  | none => ⟨[], none, false⟩
  | some l =>
    if l.length < 50 then ⟨[], none, false⟩
    else
      let latest := iloc l 1
      let crosses :=
        if 2 ≤ l.length then
          let prev := iloc l 2
          (if prev.MA10 ≤ prev.MA20 ∧ latest.MA10 > latest.MA20 then
            [({ type := "MA10_MA20", score := 6 } : GCross)] else []) ++
          (if prev.MA20 ≤ prev.MA50 ∧ latest.MA20 > latest.MA50 then
            [({ type := "MA20_MA50", score := 10 } : GCross)] else [])
        else []
      ⟨crosses, bestByScore crosses, decide (crosses.length > 0)⟩

/-- `ma_detector.detect_death_cross`: downward crossovers, checked with an
`elif` (the CRITICAL (MA20,MA50) cross suppresses the (MA10,MA20) check),
plus the factual close-below-MA flags. -/
def detect_death_cross (df : Option (List Row)) : DeathCrossRes :=
  match df with
  | none => ⟨false, [], none, none⟩
  | some l =>
    if l.length < 50 then ⟨false, [], none, none⟩
    else
      let latest := iloc l 1
      let price := latest.close
      let was_in_perfect_order := latest.MA10 > latest.MA20 ∧ latest.MA20 > latest.MA50
      let crosses :=
        if 2 ≤ l.length then
          let prev := iloc l 2
          if prev.MA20 ≥ prev.MA50 ∧ latest.MA20 < latest.MA50 then
            [({ type := "MA20_MA50", severity := "CRITICAL", credibility_score := 10 } : DCross)]
          else if prev.MA10 ≥ prev.MA20 ∧ latest.MA10 < latest.MA20 then
            [({ type := "MA10_MA20", severity := "HIGH", credibility_score := 6 } : DCross)]
          else []
        else []
      let price_below_ma : PriceBelowMA :=
        { below_ma10 := decide (price < latest.MA10)
          below_ma20 := decide (price < latest.MA20 ∧ was_in_perfect_order)
          below_ma50 := decide (price < latest.MA50) }
      ⟨decide (crosses.length > 0), crosses, bestByCredibility crosses, some price_below_ma⟩

end MADetector

/-- Per-MA slope interpretation (`ma_momentum._interpret_slope`). -/
structure SlopeAnalysis where
  slope : ℚ
  trend : String
  strength : String
deriving DecidableEq

/-- Result of `ma_momentum.analyze_momentum`. -/
structure MomentumResult where
  ma10 : SlopeAnalysis
  ma20 : SlopeAnalysis
  ma50 : SlopeAnalysis
  alignment : String
deriving DecidableEq

namespace MAMomentum

/-- `ma_momentum._calc_ma_slope`: % change per day of one MA column over a
lookback window, with the zero-denominator guard of the source. -/
def calc_ma_slope (l : List Row) (ma : Row → ℚ) (lookback_days : ℕ) : ℚ :=
  if l.length < lookback_days then 0
  else
    let ma_current := ma (iloc l 1)
    let ma_past := ma (iloc l lookback_days)
    if ma_past = 0 then 0
    else (ma_current - ma_past) / ma_past * 100 / lookback_days

/-- `ma_momentum._interpret_slope`: five-level trend and four-level strength. -/
def interpret_slope (slope : ℚ) : SlopeAnalysis :=
  let trend :=
    if slope > 3/10 then "UPTREND"
    else if slope > 1/10 then "MILD_UPTREND"
    else if slope > -(1/10) then "NEUTRAL"
    else if slope > -(3/10) then "MILD_DOWNTREND"
    else "DOWNTREND"
  let strength :=
    if |slope| > 1/2 then "VERY_STRONG"
    else if |slope| > 3/10 then "STRONG"
    else if |slope| > 3/20 then "MODERATE"
    else "WEAK"
  ⟨slope, trend, strength⟩

/-- `ma_momentum.analyze_momentum`: slopes for MA10/MA20/MA50 over 5/10/20
bars and the alignment classification by up/down slope counts. -/
def analyze_momentum (df : Option (List Row)) : MomentumResult :=
  match df with
  | none => ⟨⟨0, "NEUTRAL", "WEAK"⟩, ⟨0, "NEUTRAL", "WEAK"⟩, ⟨0, "NEUTRAL", "WEAK"⟩, "NEUTRAL"⟩
  | some l =>
    if l.length < 50 then
      ⟨⟨0, "NEUTRAL", "WEAK"⟩, ⟨0, "NEUTRAL", "WEAK"⟩, ⟨0, "NEUTRAL", "WEAK"⟩, "NEUTRAL"⟩
    else
      let ma10_slope := calc_ma_slope l Row.MA10 5
      let ma20_slope := calc_ma_slope l Row.MA20 10
      let ma50_slope := calc_ma_slope l Row.MA50 20
      let uptrend_count :=
        (if ma10_slope > 1/10 then 1 else 0) + (if ma20_slope > 1/10 then 1 else 0) +
          (if ma50_slope > 1/10 then 1 else 0)
      let downtrend_count :=
        (if ma10_slope < -(1/10) then 1 else 0) + (if ma20_slope < -(1/10) then 1 else 0) +
          (if ma50_slope < -(1/10) then 1 else 0)
      let alignment :=
        if uptrend_count = 3 then "BULLISH_ALIGNED"
        else if uptrend_count ≥ 2 then "MOSTLY_BULLISH"
        else if downtrend_count = 3 then "BEARISH_ALIGNED"
        else if downtrend_count ≥ 2 then "MOSTLY_BEARISH"
        else "MIXED"
      ⟨interpret_slope ma10_slope, interpret_slope ma20_slope, interpret_slope ma50_slope,
        alignment⟩

end MAMomentum

/-- Result of `volume_analyzer.analyze_volume_trend`. -/
structure VolumeTrend where
  current_volume : ℚ
  avg_volume : ℚ
  volume_ratio : ℚ
  trend : String
  is_decreasing : Bool
deriving DecidableEq

/-- Result of `volume_analyzer.check_convergence_volume_signal`. -/
structure ConvVolSignal where
  has_signal : Bool
  quality : String
deriving DecidableEq

namespace VolumeAnalyzer

/-- `volume_analyzer.analyze_volume_trend`: latest volume against the mean of
the last `lookback_days` volumes, classified DECREASING (<0.7x), INCREASING
(>1.3x) or STABLE. -/
def analyze_volume_trend (df : Option (List Row)) (lookback_days : ℕ) : VolumeTrend :=
  match df with
  | none => ⟨0, 0, 0, "NA", false⟩
  | some l =>
    if l.length < lookback_days then ⟨0, 0, 0, "NA", false⟩
    else
      let recent := l.drop (l.length - lookback_days)
      let current_volume := (iloc l 1).volume
      let avg_volume := (recent.map Row.volume).sum / recent.length
      if avg_volume = 0 then ⟨current_volume, 0, 0, "NA", false⟩
      else
        let volume_ratio := current_volume / avg_volume
        let ti : String × Bool :=
          if volume_ratio < 7/10 then ("DECREASING", true)
          else if volume_ratio > 13/10 then ("INCREASING", false)
          else ("STABLE", false)
        ⟨current_volume, avg_volume, round2 volume_ratio, ti.1, ti.2⟩

/-- `volume_analyzer.check_convergence_volume_signal`: accumulation signal =
convergence active AND volume decreasing, with quality tiers; `none` inputs
model falsy (`None`) arguments. -/
def check_convergence_volume_signal (convergence : Option ConvergenceDetResult)
    (volume_trend : Option VolumeTrend) : ConvVolSignal :=
  match convergence, volume_trend with
  | none, _ => ⟨false, "NA"⟩
  | _, none => ⟨false, "NA"⟩
  | some conv, some vt =>
    let convergence_level := conv.level
    let volume_ratio := vt.volume_ratio
    if ¬conv.is_converging then ⟨false, "NA"⟩
    else if ¬vt.is_decreasing then ⟨false, "NA"⟩
    else
      let quality :=
        if convergence_level = "SUPER_TIGHT" ∧ volume_ratio < 1/2 then "STRONG"
        else if convergence_level = "SUPER_TIGHT" ∨
            (convergence_level = "TIGHT" ∧ volume_ratio < 1/2) then "GOOD"
        else "WEAK"
      ⟨true, quality⟩

end VolumeAnalyzer

/-- Result of `MAAnalyzer._detect_convergence` (the analyzer's own
two-distance bandwidth variant). -/
structure ConvergenceARes where
  is_converging : Bool
  convergence_strength : ℚ
  avg_distance : ℚ
deriving DecidableEq

/-- Result of `MAAnalyzer._detect_expansion`; `distances = none` models the
empty distances dict of the early returns. -/
structure ExpansionARes where
  is_expanding : Bool
  expansion_quality : String
  ma50_slope : ℚ
  distances : Option (ℚ × ℚ)
deriving DecidableEq

/-- Result of `MAAnalyzer._detect_golden_cross`. -/
structure GoldenCrossARes where
  crosses : List GCross
  best_cross : Option GCross
deriving DecidableEq

/-- Result of `MAAnalyzer._detect_sell_warning`; warning texts are kept as
short tags (the engine only counts them and branches on the level). -/
structure SellWarning where
  has_warning : Bool
  warning_level : String
  warnings : List String
  suggested_action : String
deriving DecidableEq

/-- Result of `MAAnalyzer._detect_tight_convergence`. -/
structure TightConvRes where
  is_tight : Bool
  strength : ℚ
  avg_distance : ℚ
  suggested_action : String
deriving DecidableEq

/-- The `price_position` distances of `MAAnalyzer.analyze`. -/
structure PricePosition where
  vs_ma50 : ℚ
  vs_ma20 : ℚ
  vs_ma10 : ℚ
deriving DecidableEq

/-- The `details` dict of `MAAnalyzer.analyze` (reason strings and the
forecast block are presentation output and are not modelled). -/
structure AnalyzeDetails where
  perfect_order : Bool
  expansion : ExpansionARes
  convergence : ConvergenceARes
  golden_cross : GoldenCrossARes
  sell_warning : SellWarning
  tight_convergence : TightConvRes
  price_position : PricePosition
deriving DecidableEq

/-- Top-level result of `MAAnalyzer.analyze`; `details = none` models the
empty details dict of the insufficient-data sentinel. -/
structure AnalyzeResult where
  score : ℚ
  status : String
  details : Option AnalyzeDetails
deriving DecidableEq

/-- One UI alert of `MAAnalyzer._format_ui_alerts` (type tag and numeric
priority; the presentation payload is omitted). -/
structure Alert where
  type : String
  priority : ℚ
deriving DecidableEq

instance : Inhabited Alert := ⟨⟨"", 0⟩⟩

namespace MAAnalyzer

/-- `MAAnalyzer._detect_convergence`: average of the MA10/MA50 and MA20/MA50
absolute % distances, strength `= (8 - avg)/8*100` clamped to [0,100]. -/
def detect_convergence (df : Option (List Row)) : ConvergenceARes :=
  match df with
  | none => ⟨false, 0, 0⟩
  | some l =>
    if l.length < 50 then ⟨false, 0, 0⟩
    else
      let latest := iloc l 1
      let ma50 := latest.MA50
      if ma50 = 0 then ⟨false, 0, 0⟩
      else
        let dist_10_50 := |(latest.MA10 - ma50) / ma50 * 100|
        let dist_20_50 := |(latest.MA20 - ma50) / ma50 * 100|
        let avg_distance := (dist_10_50 + dist_20_50) / 2
        let convergence_strength := max 0 (min 100 ((8 - avg_distance) / 8 * 100))
        ⟨decide (avg_distance < 4), convergence_strength, avg_distance⟩

/-- `MAAnalyzer._detect_expansion`: requires perfect order, then buckets the
MA distances and MA50 slope into PERFECT/GOOD/WEAK. -/
def detect_expansion (df : Option (List Row)) : ExpansionARes :=
  match df with
  | none => ⟨false, "WEAK", 0, none⟩
  | some l =>
    if l.length < 50 then ⟨false, "WEAK", 0, none⟩
    else
      let latest := iloc l 1
      let perfect_order := latest.MA10 > latest.MA20 ∧ latest.MA20 > latest.MA50
      if ¬perfect_order then ⟨false, "WEAK", 0, none⟩
      else
        let ma50 := latest.MA50
        if ma50 = 0 then ⟨false, "WEAK", 0, none⟩
        else
          let dist_10_50 := (latest.MA10 - ma50) / ma50 * 100
          let dist_20_50 := (latest.MA20 - ma50) / ma50 * 100
          let ma50_slope :=
            if 10 ≤ l.length then
              let ma50_10_days_ago := (iloc l 10).MA50
              if ma50_10_days_ago > 0 then (ma50 - ma50_10_days_ago) / ma50_10_days_ago * 100
              else 0
            else 0
          let expansion_quality :=
            if dist_10_50 > 6 ∧ dist_20_50 > 3 ∧ ma50_slope > 2 then "PERFECT"
            else if dist_10_50 > 4 ∧ dist_20_50 > 2 ∧ ma50_slope > 1 then "GOOD"
            else "WEAK"
          ⟨expansion_quality = "PERFECT" ∨ expansion_quality = "GOOD", expansion_quality,
            ma50_slope, some (dist_10_50, dist_20_50)⟩

/-- `MAAnalyzer._detect_golden_cross` (same crossover logic as the detector
module, without the `has_cross` field). -/
def detect_golden_cross (df : Option (List Row)) : GoldenCrossARes :=
  match df with
  | none => ⟨[], none⟩
  | some l =>
    if l.length < 50 then ⟨[], none⟩
    else
      let latest := iloc l 1
      let crosses :=
        if 2 ≤ l.length then
          let prev := iloc l 2
          (if prev.MA10 ≤ prev.MA20 ∧ latest.MA10 > latest.MA20 then
            [({ type := "MA10_MA20", score := 6 } : GCross)] else []) ++
          (if prev.MA20 ≤ prev.MA50 ∧ latest.MA20 > latest.MA50 then
            [({ type := "MA20_MA50", score := 10 } : GCross)] else [])
        else []
      ⟨crosses, bestByScore crosses⟩

/-- `MAAnalyzer._detect_sell_warning`: death-cross warnings (CRITICAL via
MA20/MA50, else HIGH via MA10/MA20), MEDIUM price-breakdown warnings gated
by the latest bar's perfect order, and the MA50 flat-slope note. -/
def detect_sell_warning (df : Option (List Row)) : SellWarning :=
  match df with
  | none => ⟨false, "LOW", [], "HOLD"⟩
  | some l =>
    if l.length < 50 then ⟨false, "LOW", [], "HOLD"⟩
    else
      let latest := iloc l 1
      let price := latest.close
      let was_in_perfect_order := latest.MA10 > latest.MA20 ∧ latest.MA20 > latest.MA50
      let s0 : List String × String × String := ([], "LOW", "HOLD")
      let s1 : List String × String × String :=
        if 2 ≤ l.length then
          let prev := iloc l 2
          if prev.MA20 ≥ prev.MA50 ∧ latest.MA20 < latest.MA50 then
            (s0.1 ++ ["DEATH_CROSS_MA20_MA50"], "CRITICAL", "SELL_ALL")
          else if prev.MA10 ≥ prev.MA20 ∧ latest.MA10 < latest.MA20 then
            (s0.1 ++ ["MA10_BELOW_MA20"],
              if s0.2.1 = "LOW" then "HIGH" else s0.2.1,
              if s0.2.1 = "LOW" then "SELL_HALF" else s0.2.2)
          else s0
        else s0
      let s2 : List String × String × String :=
        if was_in_perfect_order ∧ price < latest.MA20 then
          (s1.1 ++ ["PRICE_BELOW_MA20"],
            if s1.2.1 = "LOW" then "MEDIUM" else s1.2.1,
            if s1.2.1 = "LOW" then "SELL_PARTIAL" else s1.2.2)
        else s1
      let s3 : List String × String × String :=
        if was_in_perfect_order ∧ price < latest.MA10 then
          (s2.1 ++ ["PRICE_BELOW_MA10"],
            if s2.2.1 = "LOW" then "MEDIUM" else s2.2.1, s2.2.2)
        else s2
      let s4 : List String × String × String :=
        if 10 ≤ l.length then
          let ma50_10_days_ago := (iloc l 10).MA50
          let ma50_slope :=
            if ma50_10_days_ago > 0 then
              (latest.MA50 - ma50_10_days_ago) / ma50_10_days_ago * 100
            else 0
          if ma50_slope < 1/2 ∧ was_in_perfect_order then
            (s3.1 ++ ["MA50_FLAT_OR_FALLING"], s3.2.1, s3.2.2)
          else s3
        else s3
      ⟨decide (s4.1.length > 0), s4.2.1, s4.1, s4.2.2⟩

/-- `MAAnalyzer._detect_tight_convergence`: composite breakout precursor —
strength ≥ 75, price above MA50, (perfect order OR near-perfect order OR
ultra-tight ≥ 95), and no CRITICAL sell warning. -/
def detect_tight_convergence (df : Option (List Row)) (convergence : ConvergenceARes)
    (sell_warning : SellWarning) : TightConvRes :=
  match df with
  | none => ⟨false, 0, 0, "WAIT"⟩
  | some l =>
    if l.length < 50 then ⟨false, 0, 0, "WAIT"⟩
    else
      let latest := iloc l 1
      let price := latest.close
      let ma10 := latest.MA10
      let ma20 := latest.MA20
      let ma50 := latest.MA50
      let strength := convergence.convergence_strength
      if strength < 75 then ⟨false, strength, 0, "WAIT"⟩
      else if price ≤ ma50 then ⟨false, strength, 0, "WAIT"⟩
      else
        let perfect_order := ma10 > ma20 ∧ ma20 > ma50
        let near_perfect_order := ma10 > ma20 ∧ ma20 ≥ ma50 * (998/1000)
        let ultra_tight := strength ≥ 95
        if ¬(perfect_order ∨ near_perfect_order ∨ ultra_tight) then
          ⟨false, strength, 0, "WAIT"⟩
        else if sell_warning.has_warning ∧ sell_warning.warning_level = "CRITICAL" then
          ⟨false, strength, 0, "WAIT"⟩
        else
          let avg_dist := convergence.avg_distance
          if strength ≥ 90 then ⟨true, strength, avg_dist, "WATCH_CLOSELY"⟩
          else ⟨true, strength, avg_dist, "WATCH"⟩

/-- Step 1 of `MAAnalyzer.analyze`: perfect order / expansion-quality score. -/
def score_step1 (l : List Row) : ℚ :=
  let latest := iloc l 1
  let perfect_order := latest.MA10 > latest.MA20 ∧ latest.MA20 > latest.MA50
  let expansion := detect_expansion (some l)
  if perfect_order then
    if expansion.expansion_quality = "PERFECT" then 6
    else if expansion.expansion_quality = "GOOD" then 5
    else 3
  else if latest.MA10 > latest.MA20 then 2
  else 0

/-- Step 2 of `MAAnalyzer.analyze`: price-vs-MA position score. -/
def score_step2 (l : List Row) : ℚ :=
  let latest := iloc l 1
  let price := latest.close
  if price > latest.MA50 then 2
  else if price > latest.MA20 then 1
  else if price > latest.MA10 then 1/2
  else 0

/-- Step 3 of `MAAnalyzer.analyze`: best golden cross credibility x 0.3. -/
def score_step3 (l : List Row) : ℚ :=
  match (detect_golden_cross (some l)).best_cross with
  | none => 0
  | some best => best.score * (3/10)

/-- Step 4 of `MAAnalyzer.analyze`: +1 convergence bonus when converging
with strength above 70. -/
def score_step4 (l : List Row) : ℚ :=
  let convergence := detect_convergence (some l)
  if convergence.is_converging ∧ convergence.convergence_strength > 70 then 1 else 0

/-- The running score of `MAAnalyzer.analyze` after steps 1-4 (perfect
order/expansion, price position, golden cross, convergence bonus), before
the tight-convergence bonus and the sell-warning penalty. -/
def score_before_warnings (l : List Row) : ℚ :=
  score_step1 l + score_step2 l + score_step3 l + score_step4 l

/-- The `price_position` distances computed in `MAAnalyzer.analyze`. -/
def price_position_of (latest : Row) : PricePosition :=
  if latest.MA50 > 0 then
    { vs_ma50 := (latest.close - latest.MA50) / latest.MA50 * 100
      vs_ma20 := if latest.MA20 > 0 then (latest.close - latest.MA20) / latest.MA20 * 100 else 0
      vs_ma10 := if latest.MA10 > 0 then (latest.close - latest.MA10) / latest.MA10 * 100 else 0 }
  else ⟨0, 0, 0⟩

/-- `MAAnalyzer.analyze`: the full scoring orchestrator — additive rule
chain, tight-convergence bonus/override, clamped sell-warning penalties,
cap at 10 and status breakpoints. -/
def analyze (df : Option (List Row)) : AnalyzeResult :=
  match df with
  | none => ⟨0, "NA", none⟩
  | some l =>
    if l.length < 50 then ⟨0, "NA", none⟩
    else
      let latest := iloc l 1
      let perfect_order := latest.MA10 > latest.MA20 ∧ latest.MA20 > latest.MA50
      let expansion := detect_expansion (some l)
      let golden_cross := detect_golden_cross (some l)
      let convergence := detect_convergence (some l)
      let sell_warning := detect_sell_warning (some l)
      let tight_convergence := detect_tight_convergence (some l) convergence sell_warning
      let base := score_before_warnings l
      let step5 : ℚ × SellWarning :=
        if tight_convergence.is_tight then
          if sell_warning.warning_level = "MEDIUM" ∨ sell_warning.warning_level = "LOW" then
            (2, ⟨false, "LOW", [], "WATCH"⟩)
          else (0, sell_warning)
        else (0, sell_warning)
      let total := base + step5.1
      let sw := step5.2
      let total2 :=
        if sw.has_warning then
          if sw.warning_level = "CRITICAL" then max 0 (total - 5)
          else if sw.warning_level = "HIGH" then max 0 (total - 3)
          else if sw.warning_level = "MEDIUM" then max 0 (total - 1)
          else total
        else total
      let final_score := min total2 10
      let status :=
        if final_score ≥ 9 then "EXCELLENT"
        else if final_score ≥ 7 then "GOOD"
        else if final_score ≥ 4 then "ACCEPTABLE"
        else if final_score ≥ 2 then "WARNING"
        else "POOR"
      ⟨final_score, status,
        some ⟨decide perfect_order, expansion, convergence, golden_cross, sw,
          tight_convergence, price_position_of latest⟩⟩

/-- Stable insertion of one alert into a priority-sorted list. -/
def insertByPriority (a : Alert) : List Alert → List Alert
  | [] => [a]
  | b :: bs => if a.priority < b.priority then a :: b :: bs else b :: insertByPriority a bs

/-- `alerts.sort(key=lambda x: x['priority'])`: stable ascending sort. -/
def sortByPriority (l : List Alert) : List Alert := l.foldr insertByPriority []

/-- The market state read from `self.df` in `_format_ui_alerts`:
`(perfect_order, in_uptrend)`, both `false` on a missing/empty frame. -/
def ui_state (df : Option (List Row)) : Bool × Bool :=
  match df with
  | none => (false, false)
  | some l =>
    if l.length > 0 then
      let latest := iloc l 1
      (decide (latest.MA10 > latest.MA20 ∧ latest.MA20 > latest.MA50),
        decide (latest.close > latest.MA50))
    else (false, false)

/-- Steps 1-5 of `_format_ui_alerts`: the alert list before the
perfect-order fallback step. -/
def ui_pre_alerts (sell_warning : SellWarning) (convergence : ConvergenceARes)
    (golden_cross : GoldenCrossARes) (expansion : ExpansionARes)
    (tight_convergence : TightConvRes) (has_critical_warning perfect_order in_uptrend : Bool) :
    List Alert :=
  let a1 : List Alert := if sell_warning.has_warning then [⟨"sell_warning", 1⟩] else []
  let a2 := a1 ++ (if tight_convergence.is_tight then [⟨"tight_convergence", 3/2⟩] else [])
  let a3 := a2 ++ (if expansion.is_expanding then [⟨"expansion", 2⟩] else [])
  let a4 := a3 ++
    (if a3.length = 0 ∧ in_uptrend ∧ ¬perfect_order then [⟨"weak_uptrend", 3⟩] else [])
  let a5 := a4 ++
    (if golden_cross.best_cross.isSome ∧ ¬has_critical_warning then [⟨"golden_cross", 4⟩]
     else [])
  a5 ++
    (if convergence.is_converging ∧ ¬has_critical_warning ∧ in_uptrend ∧ ¬perfect_order then
      [⟨"convergence", 5⟩] else [])

/-- `MAAnalyzer._format_ui_alerts`: the priority-ordered alert list with the
conflict-resolution rules (critical-warning suppression, weak-uptrend
fallback, convergence/perfect-order exclusion). -/
def format_ui_alerts (df : Option (List Row)) (sell_warning : SellWarning)
    (convergence : ConvergenceARes) (golden_cross : GoldenCrossARes)
    (expansion : ExpansionARes) (tight_convergence : TightConvRes) : List Alert :=
  let has_critical_warning := decide (sell_warning.has_warning ∧
    (sell_warning.warning_level = "CRITICAL" ∨ sell_warning.warning_level = "HIGH"))
  let state := ui_state df
  let perfect_order := state.1
  let in_uptrend := state.2
  let a6 := ui_pre_alerts sell_warning convergence golden_cross expansion tight_convergence
    has_critical_warning perfect_order in_uptrend
  let show_perfect_order := (a6.length = 0 ∧ perfect_order) ∨
    (perfect_order = true ∧ a6.length = 1 ∧ (a6.headD default).type = "convergence")
  let a7 :=
    if show_perfect_order then
      (a6.filter (fun a => a.type ≠ "convergence")) ++ [⟨"perfect_order", 6⟩]
    else a6
  sortByPriority a7

end MAAnalyzer

/-- One factual signal of `ma_signal_formatter.format_ma_signals` (type tag
only; the data payload is presentation output). -/
structure MASignal where
  type : String
deriving DecidableEq

namespace MASignalFormatter

/-- `ma_signal_formatter.format_ma_signals`: the factual signal list —
golden cross, death cross, tight convergence (which suppresses expansion via
an `elif`), momentum, and the MA50-guarded price position. -/
def format_ma_signals (df : Option (List Row)) (golden_cross : GoldenCrossRes)
    (death_cross : DeathCrossRes) (_convergence : ConvergenceDetResult)
    (expansion : ExpansionDetResult) (_momentum : MomentumResult)
    (tight_convergence : TightConvRes) : List MASignal :=
  match df with
  | none => []
  | some l =>
    if l.length < 2 then []
    else
      let latest := iloc l 1
      let s1 : List MASignal :=
        if golden_cross.best_cross.isSome then [⟨"golden_cross"⟩] else []
      let s2 := s1 ++ (if death_cross.has_death_cross then [⟨"death_cross"⟩] else [])
      let s3 := s2 ++
        (if tight_convergence.is_tight then [⟨"tight_convergence"⟩]
         else if expansion.is_expanding then [⟨"expansion"⟩]
         else [])
      let s4 := s3 ++ [⟨"momentum"⟩]
      let s5 := s4 ++ (if latest.MA50 > 0 then [⟨"price_position"⟩] else [])
      s5

end MASignalFormatter

namespace TechnicalAnalyzer

/-- `TechnicalAnalyzer._calculate_indicators` MA columns, from the source
(`technical.py` lines 28-31): `self.df['close'].rolling(n).mean()` — a
simple rolling mean whose first `n - 1` entries are null (`none`). -/
def rollingMean (n : ℕ) (xs : List ℚ) : List (Option ℚ) :=
  (List.range xs.length).map (fun i =>
    if n ≤ i + 1 then some ((((xs.drop (i + 1 - n)).take n).sum) / n) else none)

end TechnicalAnalyzer

/-- Modelled from the spec: the MASeries exponential smoothing step — no EMA
computation exists under `src/` (the only MA derivation, `technical.py`
`_calculate_indicators`, computes simple rolling means); the spec prescribes
`y_t = α·x_t + (1-α)·y_(t-1)` with `α = 2/(N+1)`. -/
def emaFrom (α y : ℚ) : List ℚ → List ℚ
  | [] => []
  | x :: xs =>
      let y2 := α * x + (1 - α) * y
      y2 :: emaFrom α y2 xs

/-- Modelled from the spec: exponential moving average with smoothing factor
`2/(N+1)`, seeded by the first close price; defined at every index. -/
def ema (n : ℕ) (xs : List ℚ) : List ℚ :=
  match xs with
  | [] => []
  | x :: rest => x :: emaFrom (2 / (n + 1)) x rest

/-- Modelled from the spec: build the working DataFrame from a close-price
and volume series by attaching the fast/medium/slow (10/20/50) EMA columns. -/
def attachMAs (closes volumes : List ℚ) : List Row :=
  let m10 := ema 10 closes
  let m20 := ema 20 closes
  let m50 := ema 50 closes
  (List.range closes.length).map (fun i =>
    { close := closes.getD i 0, volume := volumes.getD i 0,
      MA10 := m10.getD i 0, MA20 := m20.getD i 0, MA50 := m50.getD i 0 })

section Lemmas

lemma iloc_append_right (xs ys : List Row) (k : ℕ) (_h1 : 1 ≤ k) (h2 : k ≤ ys.length) :
    iloc (xs ++ ys) k = iloc ys k := by
  unfold iloc
  rw [List.length_append, List.getD_append_right _ _ _ _ (by omega)]
  congr 1
  omega

lemma iloc_append_left (xs ys : List Row) (k : ℕ) (h1 : ys.length < k)
    (h2 : k ≤ xs.length + ys.length) :
    iloc (xs ++ ys) k = iloc xs (k - ys.length) := by
  unfold iloc
  rw [List.length_append, List.getD_append _ _ _ _ (by omega)]
  congr 1
  omega

lemma iloc_replicate (n k : ℕ) (a : Row) (h1 : 1 ≤ k) (h2 : k ≤ n) :
    iloc (List.replicate n a) k = a := by
  unfold iloc
  rw [List.length_replicate, List.getD_eq_getElem _ _ (by simp; omega)]
  exact List.getElem_replicate _ _

lemma getD_replicate {α : Type} (m i : ℕ) (a d : α) (h : i < m) :
    (List.replicate m a).getD i d = a := by
  rw [List.getD_eq_getElem _ _ (by simpa using h)]
  exact List.getElem_replicate _ _

lemma emaFrom_replicate (a c : ℚ) (m : ℕ) :
    emaFrom a c (List.replicate m c) = List.replicate m c := by
  induction m with
  | zero => rfl
  | succ n ih =>
      simp only [List.replicate_succ, emaFrom]
      rw [show a * c + (1 - a) * c = c by ring, ih]

lemma ema_replicate (n m : ℕ) (c : ℚ) :
    ema n (List.replicate m c) = List.replicate m c := by
  cases m with
  | zero => rfl
  | succ k => simp only [List.replicate_succ, ema, emaFrom_replicate]

lemma attachMAs_replicate (m : ℕ) (c v : ℚ) :
    attachMAs (List.replicate m c) (List.replicate m v) =
      List.replicate m ⟨c, v, c, c, c⟩ := by
  simp only [attachMAs, ema_replicate, List.length_replicate]
  refine List.eq_replicate_iff.2 ⟨by simp, ?_⟩
  intro b hb
  simp only [List.mem_map, List.mem_range] at hb
  obtain ⟨i, hi, rfl⟩ := hb
  simp [List.getElem?_replicate, hi]

lemma mem_insertByPriority (x a : Alert) (l : List Alert) :
    x ∈ MAAnalyzer.insertByPriority a l ↔ x = a ∨ x ∈ l := by
  induction l with
  | nil => simp [MAAnalyzer.insertByPriority]
  | cons b bs ih =>
      simp only [MAAnalyzer.insertByPriority]
      split
      · simp
      · simp [ih]; tauto

lemma mem_sortByPriority (x : Alert) (l : List Alert) :
    x ∈ MAAnalyzer.sortByPriority l ↔ x ∈ l := by
  induction l with
  | nil => simp [MAAnalyzer.sortByPriority]
  | cons a as ih =>
      simp only [MAAnalyzer.sortByPriority, List.foldr_cons] at *
      rw [mem_insertByPriority, ih]
      simp

end Lemmas

/-- Claim C10: the factual signal list produced by `format_ma_signals` never
contains both a tight-convergence entry and an expansion entry: tight
convergence suppresses the expansion signal via an `elif`. -/
theorem C10_tight_convergence_suppresses_expansion
    (df : Option (List Row)) (gc : GoldenCrossRes) (dc : DeathCrossRes)
    (conv : ConvergenceDetResult) (ex : ExpansionDetResult) (mom : MomentumResult)
    (tc : TightConvRes) :
    ¬((∃ s ∈ MASignalFormatter.format_ma_signals df gc dc conv ex mom tc,
        s.type = "tight_convergence") ∧
      (∃ s ∈ MASignalFormatter.format_ma_signals df gc dc conv ex mom tc,
        s.type = "expansion")) := by
  rintro ⟨⟨a, ha, hat⟩, ⟨b, hb, hbt⟩⟩
  rcases df with _ | l
  · simp [MASignalFormatter.format_ma_signals] at ha
  · by_cases h2 : l.length < 2
    · simp [MASignalFormatter.format_ma_signals, h2] at ha
    · simp only [MASignalFormatter.format_ma_signals, if_neg h2, List.mem_append,
        List.mem_singleton] at ha hb
      rcases a with ⟨ta⟩; rcases b with ⟨tb⟩
      subst hat hbt
      split_ifs at ha hb <;> simp_all

lemma ui_pre_alerts_types (sw : SellWarning) (conv : ConvergenceARes)
    (gc : GoldenCrossARes) (ex : ExpansionARes) (tc : TightConvRes)
    (crit po up : Bool) (x : Alert)
    (hx : x ∈ MAAnalyzer.ui_pre_alerts sw conv gc ex tc crit po up) :
    x.type = "sell_warning" ∨ x.type = "tight_convergence" ∨ x.type = "expansion" ∨
      x.type = "weak_uptrend" ∨ x.type = "golden_cross" ∨
      (x.type = "convergence" ∧ po = false) := by
  simp only [MAAnalyzer.ui_pre_alerts, List.mem_append] at hx
  split_ifs at hx <;> (try simp_all) <;> (try casesm* _ ∨ _) <;> simp_all

/-- Claim C7: the alert list produced by `format_ui_alerts` never contains
both a convergence entry and a perfect-order entry: convergence is emitted
only without perfect order, and a lone convergence alert is removed before
the perfect-order alert is appended. -/
theorem C7_convergence_perfect_order_exclusive
    (df : Option (List Row)) (sw : SellWarning) (conv : ConvergenceARes)
    (gc : GoldenCrossARes) (ex : ExpansionARes) (tc : TightConvRes) :
    ¬((∃ a ∈ MAAnalyzer.format_ui_alerts df sw conv gc ex tc, a.type = "convergence") ∧
      (∃ a ∈ MAAnalyzer.format_ui_alerts df sw conv gc ex tc, a.type = "perfect_order")) := by
  rintro ⟨⟨a, ha, hat⟩, ⟨b, hb, hbt⟩⟩
  simp only [MAAnalyzer.format_ui_alerts, mem_sortByPriority] at ha hb
  rcases hpo : (MAAnalyzer.ui_state df).1 with _ | _
  · -- no perfect order: the fallback step never fires, so no
    -- perfect-order entry can be present
    rw [hpo] at ha hb
    rw [if_neg (by simp)] at hb
    have := ui_pre_alerts_types _ _ _ _ _ _ _ _ _ hb
    simp [hbt] at this
  · -- perfect order holds: the pre-list never got a convergence entry
    rw [hpo] at ha hb
    split_ifs at ha with hshow
    · rcases List.mem_append.1 ha with h | h
      · exact absurd hat (by simpa using (List.mem_filter.1 h).2)
      · simp at h
        rw [h] at hat
        simp at hat
    · have := ui_pre_alerts_types _ _ _ _ _ _ _ _ _ ha
      simp [hat] at this

/-- Claim C8: the convergence/volume accumulation signal fires exactly when
convergence is active and the volume trend is DECREASING; a firing signal
has quality STRONG/GOOD/WEAK, a non-firing one has quality NA. -/
theorem C8_convergence_volume_signal (conv : ConvergenceDetResult) (df : Option (List Row)) :
    (VolumeAnalyzer.check_convergence_volume_signal (some conv)
        (some (VolumeAnalyzer.analyze_volume_trend df 20))).has_signal =
      (conv.is_converging && (VolumeAnalyzer.analyze_volume_trend df 20).is_decreasing) ∧
    ((VolumeAnalyzer.analyze_volume_trend df 20).is_decreasing = true ↔
      (VolumeAnalyzer.analyze_volume_trend df 20).trend = "DECREASING") ∧
    ((VolumeAnalyzer.check_convergence_volume_signal (some conv)
        (some (VolumeAnalyzer.analyze_volume_trend df 20))).has_signal = true →
      (VolumeAnalyzer.check_convergence_volume_signal (some conv)
          (some (VolumeAnalyzer.analyze_volume_trend df 20))).quality = "STRONG" ∨
      (VolumeAnalyzer.check_convergence_volume_signal (some conv)
          (some (VolumeAnalyzer.analyze_volume_trend df 20))).quality = "GOOD" ∨
      (VolumeAnalyzer.check_convergence_volume_signal (some conv)
          (some (VolumeAnalyzer.analyze_volume_trend df 20))).quality = "WEAK") ∧
    ((VolumeAnalyzer.check_convergence_volume_signal (some conv)
        (some (VolumeAnalyzer.analyze_volume_trend df 20))).has_signal = false →
      (VolumeAnalyzer.check_convergence_volume_signal (some conv)
          (some (VolumeAnalyzer.analyze_volume_trend df 20))).quality = "NA") := by
  refine ⟨?_, ?_, ?_, ?_⟩
  · by_cases hc : conv.is_converging <;>
      by_cases hd : (VolumeAnalyzer.analyze_volume_trend df 20).is_decreasing <;>
        simp [VolumeAnalyzer.check_convergence_volume_signal, hc, hd]
  · rcases df with _ | l
    · simp [VolumeAnalyzer.analyze_volume_trend]
    · simp only [VolumeAnalyzer.analyze_volume_trend]
      split_ifs <;> simp_all
  · intro h
    simp only [VolumeAnalyzer.check_convergence_volume_signal] at h ⊢
    split_ifs at h ⊢ <;> simp_all
  · intro h
    simp only [VolumeAnalyzer.check_convergence_volume_signal] at h ⊢
    split_ifs at h ⊢ <;> simp_all

lemma best_cross_cases (l : List Row) :
    (MAAnalyzer.detect_golden_cross (some l)).best_cross = none ∨
    (MAAnalyzer.detect_golden_cross (some l)).best_cross = some ⟨"MA10_MA20", 6⟩ ∨
    (MAAnalyzer.detect_golden_cross (some l)).best_cross = some ⟨"MA20_MA50", 10⟩ := by
  simp only [MAAnalyzer.detect_golden_cross]
  split_ifs <;> norm_num [bestByScore]

lemma score_step1_nonneg (l : List Row) : 0 ≤ MAAnalyzer.score_step1 l := by
  simp only [MAAnalyzer.score_step1]
  split_ifs <;> norm_num

lemma score_step2_nonneg (l : List Row) : 0 ≤ MAAnalyzer.score_step2 l := by
  simp only [MAAnalyzer.score_step2]
  split_ifs <;> norm_num

lemma score_step3_nonneg (l : List Row) : 0 ≤ MAAnalyzer.score_step3 l := by
  simp only [MAAnalyzer.score_step3]
  rcases best_cross_cases l with h | h | h <;> rw [h] <;> norm_num

lemma score_step4_nonneg (l : List Row) : 0 ≤ MAAnalyzer.score_step4 l := by
  simp only [MAAnalyzer.score_step4]
  split_ifs <;> norm_num

lemma score_before_warnings_nonneg (l : List Row) :
    0 ≤ MAAnalyzer.score_before_warnings l := by
  have h1 := score_step1_nonneg l
  have h2 := score_step2_nonneg l
  have h3 := score_step3_nonneg l
  have h4 := score_step4_nonneg l
  simp only [MAAnalyzer.score_before_warnings]
  linarith

/-- Claim C2: for every input frame (missing, short or arbitrary), the score
returned by `MAAnalyzer.analyze` lies in [0, 10]: the additive steps are
nonnegative, each sell-warning penalty is clamped at the 0 floor, and the
total is capped at 10. -/
theorem C2_analyze_score_bounded (df : Option (List Row)) :
    0 ≤ (MAAnalyzer.analyze df).score ∧ (MAAnalyzer.analyze df).score ≤ 10 := by
  rcases df with _ | l
  · simp [MAAnalyzer.analyze]
  · by_cases h50 : l.length < 50
    · simp [MAAnalyzer.analyze, h50]
    · have hbase := score_before_warnings_nonneg l
      simp only [MAAnalyzer.analyze, if_neg h50]
      constructor
      · refine le_min ?_ (by norm_num)
        split_ifs <;>
          first
            | exact le_max_left 0 _
            | exact add_nonneg hbase (by norm_num)
      · exact min_le_right _ _

/-- Claim C3: on a missing frame or one shorter than 50 bars, `analyze`
returns score 0 with status NA, and every pattern detector returns its
insufficient-data sentinel (false verdict, zero strength) — all functions
are total, so no exception can propagate. -/
theorem C3_insufficient_data_sentinels (df : Option (List Row)) (po : Bool)
    (conv : ConvergenceARes) (sw : SellWarning)
    (h : df = none ∨ ∃ l, df = some l ∧ l.length < 50) :
    (MAAnalyzer.analyze df).score = 0 ∧ (MAAnalyzer.analyze df).status = "NA" ∧
    (MAAnalyzer.analyze df).details = none ∧
    MADetector.detect_convergence df po = ⟨false, 0, "NA", "NA"⟩ ∧
    MADetector.detect_expansion df = ⟨false, "NEUTRAL", 0, 0, 0⟩ ∧
    MADetector.detect_golden_cross df = ⟨[], none, false⟩ ∧
    MADetector.detect_death_cross df = ⟨false, [], none, none⟩ ∧
    MAAnalyzer.detect_tight_convergence df conv sw = ⟨false, 0, 0, "WAIT"⟩ := by
  rcases h with rfl | ⟨l, rfl, hl⟩
  · exact ⟨rfl, rfl, rfl, rfl, rfl, rfl, rfl, rfl⟩
  · simp [MAAnalyzer.analyze, MADetector.detect_convergence, MADetector.detect_expansion,
      MADetector.detect_golden_cross, MADetector.detect_death_cross,
      MAAnalyzer.detect_tight_convergence, hl]

/-- Concrete instantiation of C3 at an empty frame. -/
theorem C3_witness :
    (MAAnalyzer.analyze (some [])).score = 0 ∧
    (MAAnalyzer.analyze (some [])).status = "NA" ∧
    (MAAnalyzer.analyze (some [])).details = none ∧
    MADetector.detect_convergence (some []) false = ⟨false, 0, "NA", "NA"⟩ ∧
    MADetector.detect_expansion (some []) = ⟨false, "NEUTRAL", 0, 0, 0⟩ ∧
    MADetector.detect_golden_cross (some []) = ⟨[], none, false⟩ ∧
    MADetector.detect_death_cross (some []) = ⟨false, [], none, none⟩ ∧
    MAAnalyzer.detect_tight_convergence (some []) ⟨false, 0, 0⟩ ⟨false, "LOW", [], "HOLD"⟩ =
      ⟨false, 0, 0, "WAIT"⟩ :=
  C3_insufficient_data_sentinels (some []) false ⟨false, 0, 0⟩ ⟨false, "LOW", [], "HOLD"⟩
    (Or.inr ⟨[], rfl, by decide⟩)

/-- C4 counterexample frame: on the last bar both the (MA20,MA50) and the
(MA10,MA20) downward-cross conditions hold simultaneously. -/
def c4df : List Row :=
  List.replicate 48 default ++
    [{ close := 9, MA10 := 10, MA20 := 10, MA50 := 9 },
     { close := 9, MA10 := 8, MA20 := 9, MA50 := 10 }]

/-- Claim C4 is false as stated: on `c4df` the (fast,medium) downward-cross
condition holds on the latest bar, yet `detect_death_cross` reports only the
CRITICAL (medium,slow) cross — the `elif` suppresses the (fast,medium)
cross, unlike the golden-cross detector which checks both pairs. -/
theorem C4_counterexample :
    50 ≤ c4df.length ∧
    (iloc c4df 2).MA10 ≥ (iloc c4df 2).MA20 ∧ (iloc c4df 1).MA10 < (iloc c4df 1).MA20 ∧
    (MADetector.detect_death_cross (some c4df)).crosses =
      [⟨"MA20_MA50", "CRITICAL", 10⟩] ∧
    (MADetector.detect_death_cross (some c4df)).strongest_cross =
      some ⟨"MA20_MA50", "CRITICAL", 10⟩ := by
  refine ⟨by decide, by decide, by decide, ?_, ?_⟩ <;> decide

/-- Claim C4 (amended): the (fast,medium) death cross is reported with
severity HIGH and credibility 6 only when the (medium,slow) CRITICAL cross
condition does not hold on the same bar; when both conditions hold, only the
CRITICAL cross is reported. -/
theorem C4_amended_death_cross_high (l : List Row) (h50 : 50 ≤ l.length)
    (hprev : (iloc l 2).MA10 ≥ (iloc l 2).MA20) (hlast : (iloc l 1).MA10 < (iloc l 1).MA20)
    (hnc : ¬((iloc l 2).MA20 ≥ (iloc l 2).MA50 ∧ (iloc l 1).MA20 < (iloc l 1).MA50)) :
    (MADetector.detect_death_cross (some l)).has_death_cross = true ∧
    (MADetector.detect_death_cross (some l)).crosses = [⟨"MA10_MA20", "HIGH", 6⟩] ∧
    (MADetector.detect_death_cross (some l)).strongest_cross =
      some ⟨"MA10_MA20", "HIGH", 6⟩ := by
  have h2 : 2 ≤ l.length := by omega
  simp [MADetector.detect_death_cross, show ¬l.length < 50 by omega, h2, hnc,
    hprev, hlast, bestByCredibility]

/-- C4 witness frame: a lone (fast,medium) downward cross. -/
def c4wdf : List Row :=
  List.replicate 48 default ++
    [{ close := 9, MA10 := 10, MA20 := 10, MA50 := 10 },
     { close := 9, MA10 := 8, MA20 := 9, MA50 := 8 }]

/-- Concrete instantiation of the amended C4. -/
theorem C4_amended_witness :
    (MADetector.detect_death_cross (some c4wdf)).has_death_cross = true ∧
    (MADetector.detect_death_cross (some c4wdf)).crosses = [⟨"MA10_MA20", "HIGH", 6⟩] ∧
    (MADetector.detect_death_cross (some c4wdf)).strongest_cross =
      some ⟨"MA10_MA20", "HIGH", 6⟩ :=
  C4_amended_death_cross_high c4wdf (by decide) (by decide) (by decide) (by decide)

/-- C5 counterexample frame: the prior bar is not in perfect order and the
latest close sits below MA50. -/
def c5df : List Row :=
  List.replicate 49 default ++ [{ close := 4, MA10 := 5, MA20 := 6, MA50 := 10 }]

/-- Claim C5 is false as stated: on `c5df` the prior bar is not in perfect
order, yet the close-below-slow-MA flag is reported true — the source
gates only `below_ma20`, and by the LATEST bar's perfect order, not the
prior bar's. -/
theorem C5_counterexample :
    ¬((iloc c5df 2).MA10 > (iloc c5df 2).MA20 ∧ (iloc c5df 2).MA20 > (iloc c5df 2).MA50) ∧
    (MADetector.detect_death_cross (some c5df)).price_below_ma =
      some ⟨true, false, true⟩ := by
  refine ⟨by decide, ?_⟩
  decide

/-- Claim C5 (amended): in `detect_death_cross` the below-MA10 and
below-MA50 flags are ungated comparisons of the latest close against the
latest MAs; only the below-MA20 flag is gated, and the gate is perfect
order on the latest bar (not the prior bar). -/
theorem C5_amended_price_below_flags (l : List Row) (h50 : 50 ≤ l.length) :
    (MADetector.detect_death_cross (some l)).price_below_ma =
      some ⟨decide ((iloc l 1).close < (iloc l 1).MA10),
        decide ((iloc l 1).close < (iloc l 1).MA20 ∧
          ((iloc l 1).MA10 > (iloc l 1).MA20 ∧ (iloc l 1).MA20 > (iloc l 1).MA50)),
        decide ((iloc l 1).close < (iloc l 1).MA50)⟩ := by
  simp [MADetector.detect_death_cross, show ¬l.length < 50 by omega]

/-- C6 counterexample frame: 49 identical bars followed by a bar on which
MA10 dips just below MA20 — tight convergence holds (ultra-tight) together
with a HIGH sell warning (an MA10/MA20 death cross). -/
def c6prev : Row := { close := 101, MA10 := 1003/10, MA20 := 1002/10, MA50 := 100 }

/-- Last bar of the C6 counterexample frame. -/
def c6last : Row := { close := 101, MA10 := 100, MA20 := 1002/10, MA50 := 100 }

/-- The C6 counterexample frame. -/
def c6df : List Row := List.replicate 49 c6prev ++ [c6last]

lemma c6df_iloc_one : iloc c6df 1 = c6last := by
  rw [c6df, iloc_append_right _ _ 1 le_rfl (by simp)]
  rfl

lemma c6df_iloc (k : ℕ) (h1 : 2 ≤ k) (h2 : k ≤ 50) : iloc c6df k = c6prev := by
  rw [c6df, iloc_append_left _ _ k (by simp only [List.length_singleton]; omega)
    (by simp only [List.length_replicate, List.length_singleton]; omega)]
  exact iloc_replicate _ _ _ (by simp only [List.length_singleton]; omega)
    (by simp only [List.length_singleton, List.length_replicate]; omega)

lemma c6df_length : c6df.length = 50 := by simp [c6df]

lemma c6_conv : MAAnalyzer.detect_convergence (some c6df) = ⟨true, 395/4, 1/10⟩ := by
  simp only [MAAnalyzer.detect_convergence, c6df_length, c6df_iloc_one]
  norm_num [c6last, min_def, max_def, abs_of_nonneg, ConvergenceARes.mk.injEq]

lemma c6_sw : MAAnalyzer.detect_sell_warning (some c6df) =
    ⟨true, "HIGH", ["MA10_BELOW_MA20"], "SELL_HALF"⟩ := by
  simp only [MAAnalyzer.detect_sell_warning, c6df_length, c6df_iloc_one,
    c6df_iloc 2 (by norm_num) (by norm_num), c6df_iloc 10 (by norm_num) (by norm_num)]
  norm_num [c6last, c6prev, SellWarning.mk.injEq]

lemma c6_tight : MAAnalyzer.detect_tight_convergence (some c6df)
    (MAAnalyzer.detect_convergence (some c6df)) (MAAnalyzer.detect_sell_warning (some c6df)) =
    ⟨true, 395/4, 1/10, "WATCH_CLOSELY"⟩ := by
  rw [c6_conv, c6_sw]
  simp only [MAAnalyzer.detect_tight_convergence, c6df_length, c6df_iloc_one]
  norm_num [c6last, TightConvRes.mk.injEq]
  decide

lemma c6_exp : MAAnalyzer.detect_expansion (some c6df) = ⟨false, "WEAK", 0, none⟩ := by
  simp only [MAAnalyzer.detect_expansion, c6df_length, c6df_iloc_one]
  norm_num [c6last]

lemma c6_gc : MAAnalyzer.detect_golden_cross (some c6df) = ⟨[], none⟩ := by
  simp only [MAAnalyzer.detect_golden_cross, c6df_length, c6df_iloc_one,
    c6df_iloc 2 (by norm_num) (by norm_num)]
  norm_num [c6last, c6prev, bestByScore]

lemma c6_base : MAAnalyzer.score_before_warnings c6df = 3 := by
  simp only [MAAnalyzer.score_before_warnings, MAAnalyzer.score_step1,
    MAAnalyzer.score_step2, MAAnalyzer.score_step3, MAAnalyzer.score_step4,
    c6_exp, c6_gc, c6_conv, c6df_iloc_one]
  norm_num [c6last]

/-- Claim C6 is false as stated: on `c6df` tight convergence is detected
(`is_tight = true`), but the concurrent sell warning has level HIGH, so
`analyze` adds no +2 bonus and applies the full -3 penalty: the running
score 3 drops to 0 and the warning is not overridden. Under the claim the
score would have been `min (3 + 2) 10` with the warning cleared. -/
theorem C6_counterexample :
    (MAAnalyzer.detect_tight_convergence (some c6df)
      (MAAnalyzer.detect_convergence (some c6df))
      (MAAnalyzer.detect_sell_warning (some c6df))).is_tight = true ∧
    (MAAnalyzer.detect_sell_warning (some c6df)).warning_level = "HIGH" ∧
    MAAnalyzer.score_before_warnings c6df = 3 ∧
    (MAAnalyzer.analyze (some c6df)).score = 0 ∧
    (∃ d, (MAAnalyzer.analyze (some c6df)).details = some d ∧
      d.sell_warning.has_warning = true) := by
  refine ⟨by rw [c6_tight], by rw [c6_sw], c6_base, ?_, ?_⟩
  · simp only [MAAnalyzer.analyze, c6df_length]
    rw [c6_tight, c6_sw, c6_base]
    simp
  · simp only [MAAnalyzer.analyze, c6df_length]
    rw [c6_tight, c6_sw]
    simp

/-- Claim C6 (amended): when tight convergence is detected AND the
concurrent sell warning has level MEDIUM or LOW, `analyze` adds the +2
bonus (final score `min (base + 2) 10`) and the warning is overridden, so
no penalty applies; with a HIGH warning no bonus is added. -/
theorem C6_amended_tight_convergence_bonus (l : List Row) (h50 : 50 ≤ l.length)
    (ht : (MAAnalyzer.detect_tight_convergence (some l)
      (MAAnalyzer.detect_convergence (some l))
      (MAAnalyzer.detect_sell_warning (some l))).is_tight = true)
    (hw : (MAAnalyzer.detect_sell_warning (some l)).warning_level = "MEDIUM" ∨
      (MAAnalyzer.detect_sell_warning (some l)).warning_level = "LOW") :
    (MAAnalyzer.analyze (some l)).score =
      min (MAAnalyzer.score_before_warnings l + 2) 10 ∧
    ∃ d, (MAAnalyzer.analyze (some l)).details = some d ∧
      d.sell_warning = ⟨false, "LOW", [], "WATCH"⟩ := by
  simp only [MAAnalyzer.analyze, show ¬l.length < 50 by omega, if_false, ht, hw,
    if_true, if_pos hw]
  simp

/-- C6 witness frame: 50 identical perfect-order bars in tight convergence
with only the LOW-level MA50-flat warning. -/
def c6wrow : Row := { close := 101, MA10 := 1004/10, MA20 := 1002/10, MA50 := 100 }

/-- The C6 witness frame. -/
def c6wdf : List Row := List.replicate 50 c6wrow

lemma c6wdf_iloc (k : ℕ) (h1 : 1 ≤ k) (h2 : k ≤ 50) : iloc c6wdf k = c6wrow := by
  rw [c6wdf]
  exact iloc_replicate _ _ _ h1 (by simpa using h2)

lemma c6wdf_length : c6wdf.length = 50 := by simp [c6wdf]

lemma c6w_conv : MAAnalyzer.detect_convergence (some c6wdf) = ⟨true, 385/4, 3/10⟩ := by
  simp only [MAAnalyzer.detect_convergence, c6wdf_length,
    c6wdf_iloc 1 le_rfl (by norm_num)]
  norm_num [c6wrow, min_def, max_def, abs_of_nonneg, ConvergenceARes.mk.injEq]

lemma c6w_sw : MAAnalyzer.detect_sell_warning (some c6wdf) =
    ⟨true, "LOW", ["MA50_FLAT_OR_FALLING"], "HOLD"⟩ := by
  simp only [MAAnalyzer.detect_sell_warning, c6wdf_length,
    c6wdf_iloc 1 le_rfl (by norm_num), c6wdf_iloc 2 (by norm_num) (by norm_num),
    c6wdf_iloc 10 (by norm_num) (by norm_num)]
  norm_num [c6wrow, SellWarning.mk.injEq]

lemma c6w_tight : MAAnalyzer.detect_tight_convergence (some c6wdf)
    (MAAnalyzer.detect_convergence (some c6wdf))
    (MAAnalyzer.detect_sell_warning (some c6wdf)) =
    ⟨true, 385/4, 3/10, "WATCH_CLOSELY"⟩ := by
  rw [c6w_conv, c6w_sw]
  simp only [MAAnalyzer.detect_tight_convergence, c6wdf_length,
    c6wdf_iloc 1 le_rfl (by norm_num)]
  norm_num [c6wrow, TightConvRes.mk.injEq]
  decide

/-- Concrete instantiation of the amended C6: tight convergence with a LOW
sell warning gets the +2 bonus and the cleared warning. -/
theorem C6_amended_witness :
    (MAAnalyzer.analyze (some c6wdf)).score =
      min (MAAnalyzer.score_before_warnings c6wdf + 2) 10 ∧
    ∃ d, (MAAnalyzer.analyze (some c6wdf)).details = some d ∧
      d.sell_warning = ⟨false, "LOW", [], "WATCH"⟩ :=
  C6_amended_tight_convergence_bonus c6wdf (by rw [c6wdf_length])
    (by rw [c6w_tight]) (Or.inr (by rw [c6w_sw]))

/-- Concrete instantiation of the amended C5. -/
theorem C5_amended_witness :
    (MADetector.detect_death_cross (some c5df)).price_below_ma =
      some ⟨decide ((iloc c5df 1).close < (iloc c5df 1).MA10),
        decide ((iloc c5df 1).close < (iloc c5df 1).MA20 ∧
          ((iloc c5df 1).MA10 > (iloc c5df 1).MA20 ∧
            (iloc c5df 1).MA20 > (iloc c5df 1).MA50)),
        decide ((iloc c5df 1).close < (iloc c5df 1).MA50)⟩ :=
  C5_amended_price_below_flags c5df (by decide)

/-- Claim C9: on a 60-bar series with constant positive close price, the
derived MAs coincide with the close, so convergence bandwidth is 0 with
`is_converging = true` at level SUPER_TIGHT, every MA slope is 0, and the
momentum alignment is MIXED. -/
theorem C9_flat_series (c : ℚ) (hc : 0 < c) :
    (MADetector.detect_convergence
        (some (attachMAs (List.replicate 60 c) (List.replicate 60 0))) false).convergence_pct
        = 0 ∧
    (MADetector.detect_convergence
        (some (attachMAs (List.replicate 60 c) (List.replicate 60 0))) false).is_converging
        = true ∧
    (MADetector.detect_convergence
        (some (attachMAs (List.replicate 60 c) (List.replicate 60 0))) false).level
        = "SUPER_TIGHT" ∧
    (MAMomentum.analyze_momentum
        (some (attachMAs (List.replicate 60 c) (List.replicate 60 0)))).ma10.slope = 0 ∧
    (MAMomentum.analyze_momentum
        (some (attachMAs (List.replicate 60 c) (List.replicate 60 0)))).ma20.slope = 0 ∧
    (MAMomentum.analyze_momentum
        (some (attachMAs (List.replicate 60 c) (List.replicate 60 0)))).ma50.slope = 0 ∧
    (MAMomentum.analyze_momentum
        (some (attachMAs (List.replicate 60 c) (List.replicate 60 0)))).alignment
        = "MIXED" := by
  rw [attachMAs_replicate]
  have hil : ∀ k, 1 ≤ k → k ≤ 60 →
      iloc (List.replicate 60 (⟨c, 0, c, c, c⟩ : Row)) k = ⟨c, 0, c, c, c⟩ :=
    fun k h1 h2 => iloc_replicate _ _ _ h1 (by omega)
  simp only [MADetector.detect_convergence, MAMomentum.analyze_momentum,
    MAMomentum.calc_ma_slope, MAMomentum.interpret_slope, List.length_replicate,
    hil 1 (by norm_num) (by norm_num), hil 5 (by norm_num) (by norm_num),
    hil 10 (by norm_num) (by norm_num), hil 20 (by norm_num) (by norm_num)]
  norm_num [hc.ne', min_self, max_self]

/-- Concrete instantiation of C9 at close price 100. -/
theorem C9_witness :
    (MADetector.detect_convergence
        (some (attachMAs (List.replicate 60 100) (List.replicate 60 0))) false).convergence_pct
        = 0 ∧
    (MADetector.detect_convergence
        (some (attachMAs (List.replicate 60 100) (List.replicate 60 0))) false).is_converging
        = true ∧
    (MADetector.detect_convergence
        (some (attachMAs (List.replicate 60 100) (List.replicate 60 0))) false).level
        = "SUPER_TIGHT" ∧
    (MAMomentum.analyze_momentum
        (some (attachMAs (List.replicate 60 100) (List.replicate 60 0)))).ma10.slope = 0 ∧
    (MAMomentum.analyze_momentum
        (some (attachMAs (List.replicate 60 100) (List.replicate 60 0)))).ma20.slope = 0 ∧
    (MAMomentum.analyze_momentum
        (some (attachMAs (List.replicate 60 100) (List.replicate 60 0)))).ma50.slope = 0 ∧
    (MAMomentum.analyze_momentum
        (some (attachMAs (List.replicate 60 100) (List.replicate 60 0)))).alignment
        = "MIXED" :=
  C9_flat_series 100 (by decide)

/-- C1 failing input: ten bars, nine zero closes then a close of 11. -/
def c1closes : List ℚ := [0, 0, 0, 0, 0, 0, 0, 0, 0, 11]

/-- Claim C1 fails on the code: `_calculate_indicators` computes simple
rolling means, not EMAs. On a 50-bar constant series the MA10 column is
null at index 0 (so the MA series is NOT defined at every index), and on
`c1closes` the first defined rolling-mean entry (index 9) is 11/10 while
the EMA prescribed by the spec is 2 there. -/
theorem C1_rolling_mean_is_not_ema :
    (TechnicalAnalyzer.rollingMean 10 (List.replicate 50 100)).getD 0 (some 0) = none ∧
    (TechnicalAnalyzer.rollingMean 10 c1closes).getD 9 none = some (11/10) ∧
    (ema 10 c1closes).getD 9 0 = 2 ∧
    (11 : ℚ)/10 ≠ 2 := by
  refine ⟨?_, ?_, ?_, by norm_num⟩
  · have h : List.range (List.replicate (50:ℕ) (100:ℚ)).length =
        0 :: List.range' 1 49 := by simp [List.range_eq_range']; rfl
    simp [TechnicalAnalyzer.rollingMean, h]
  · have h : List.range c1closes.length = [0, 1, 2, 3, 4, 5, 6, 7, 8, 9] := by rfl
    simp only [TechnicalAnalyzer.rollingMean, h, List.map_cons, List.map_nil]
    norm_num [c1closes]
  · simp only [ema, c1closes, emaFrom]
    norm_num

end TradingFilter
